import Mathlib

/- Shallow embedding of the moim monorepo snapshot: its build-tool
   configuration files (apps/mobile/babel.config.js, metro.config.js,
   eslint.config.mjs, prettier.config.js) and the example code and
   inventory of its documentation files (README.md, ZOD_GUIDE.md, the
   environment-variable guide). -/

/-- A process environment: maps a variable name to its value, if set. -/
abbrev Env : Type := String → Option String

/-- JavaScript defaulting on process.env values, as in the source
    expression process.env.ENV_FILE with a string fallback joined by
    logical-or: the fallback is taken when the variable is undefined or
    the empty string (both falsy in JavaScript). -/
def jsOr (v : Option String) (dflt : String) : String :=
  match v with
  | some s => if s = "" then dflt else s
  | none => dflt

/-- Options object passed to the react-native-dotenv Babel plugin in
    apps/mobile/babel.config.js. -/
structure DotenvOptions where
  envName : String
  moduleName : String
  path : String
  safe : Bool
  allowUndefined : Bool
  verbose : Bool
deriving DecidableEq

/-- The value exported by apps/mobile/babel.config.js: a presets list and
    a plugins list, each plugin an entry of plugin name and options. -/
structure BabelConfig where
  presets : List String
  plugins : List (String × DotenvOptions)
deriving DecidableEq

/-- apps/mobile/babel.config.js, evaluated in environment env. The path
    option is the source expression process.env.ENV_FILE defaulted (via
    logical-or) to the string .env.dev. -/
def babelConfig (env : Env) : BabelConfig :=
  { presets := ["module:@react-native/babel-preset"],
    plugins :=
      [("module:react-native-dotenv",
        { envName := "APP_ENV",
          moduleName := "@env",
          path := jsOr (env "ENV_FILE") ".env.dev",
          safe := false,
          allowUndefined := true,
          verbose := false })] }

/-- The path option of the react-native-dotenv plugin entry of a Babel
    configuration, if that plugin is present. -/
def dotenvPath (c : BabelConfig) : Option String :=
  (c.plugins.find? (fun p => p.1 == "module:react-native-dotenv")).map
    (fun p => p.2.path)

/- Path resolution, modelling Node's path.resolve(base, rel) for an
   absolute base: segments are joined and the special segments dot and
   dot-dot are normalised left to right. -/

/-- Split a character list at every occurrence of the separator. -/
def splitOnChar (sep : Char) : List Char → List (List Char)
  | [] => [[]]
  | c :: rest =>
    match splitOnChar sep rest with
    | [] => if c == sep then [[], [c]] else [[c]]
    | h :: t => if c == sep then [] :: h :: t else (c :: h) :: t

/-- Path segments of a path string: split on the slash character and
    drop empty segments. -/
def splitPath (p : String) : List String :=
  ((splitOnChar '/' p.toList).filter (fun cs => !cs.isEmpty)).map
    (fun cs => String.mk cs)

/-- One step of path normalisation: a dot-dot segment pops the last
    accumulated segment, a dot segment is skipped, any other segment is
    appended. -/
def normStep (acc : List String) (seg : String) : List String :=
  if seg = ".." then acc.dropLast
  else if seg = "." then acc
  else acc ++ [seg]

/-- Normalise a segment list by folding normStep from the left. -/
def normalizeSegs (segs : List String) : List String :=
  segs.foldl normStep []

/-- Rebuild an absolute path string from its segments. -/
def joinPath (segs : List String) : String :=
  "/" ++ String.intercalate "/" segs

/-- Model of path.resolve(base, rel) for an absolute base path. -/
def resolvePath (base rel : String) : String :=
  joinPath (normalizeSegs (splitPath base ++ splitPath rel))

/-- The config object defined in metro.config.js (the part of the export
    written in this repository; the export wraps it with the third-party
    mergeConfig and getDefaultConfig). monorepoRoot is the source
    expression path.resolve(dirname, up-two-directories). -/
structure MetroConfig where
  watchFolders : List String
  nodeModulesPaths : List String
deriving DecidableEq

/-- metro.config.js config object as a function of the directory the
    config file lives in. -/
def metroConfig (dirname : String) : MetroConfig :=
  let monorepoRoot := resolvePath dirname "../.."
  { watchFolders :=
      [monorepoRoot,
       monorepoRoot ++ "/packages/ui",
       monorepoRoot ++ "/packages/ts-config"],
    nodeModulesPaths :=
      [resolvePath dirname "node_modules",
       resolvePath monorepoRoot "node_modules"] }

/-- The four entries composed by eslint.config.mjs, in source order. -/
inductive EslintEntry where
  | reactNativeConfig
  | reactHooksFlatRecommended
  | eslintConfigPrettier
  | reactFlatRecommended
deriving DecidableEq

/-- The list passed to defineConfig in eslint.config.mjs. -/
def eslintFlatConfig : List EslintEntry :=
  [EslintEntry.reactNativeConfig,
   EslintEntry.reactHooksFlatRecommended,
   EslintEntry.eslintConfigPrettier,
   EslintEntry.reactFlatRecommended]

/-- The config object exported by prettier.config.js. -/
structure PrettierConfig where
  plugins : List String
  endOfLine : String
  trailingComma : String
  tabWidth : Nat
  semi : Bool
  singleQuote : Bool
  arrowParens : String
  importOrderSortSpecifiers : Bool
deriving DecidableEq

/-- prettier.config.js export. -/
def prettierConfig : PrettierConfig :=
  { plugins :=
      ["prettier-plugin-css-order",
       "prettier-plugin-organize-attributes",
       "@trivago/prettier-plugin-sort-imports",
       "prettier-plugin-style-order",
       "prettier-plugin-tailwindcss"],
    endOfLine := "lf",
    trailingComma := "es5",
    tabWidth := 4,
    semi := false,
    singleQuote := true,
    arrowParens := "avoid",
    importOrderSortSpecifiers := true }

/-- metro.config.js reads the module's directory but no process
    environment variable, so its export as a function of the environment
    ignores the environment. -/
def metroExport (_ : Env) (dirname : String) : MetroConfig :=
  metroConfig dirname

/-- eslint.config.mjs reads no process environment variable. -/
def eslintExport (_ : Env) : List EslintEntry :=
  eslintFlatConfig

/-- prettier.config.js reads no process environment variable. -/
def prettierExport (_ : Env) : PrettierConfig :=
  prettierConfig

/-- Environment with no variable set. -/
def envUnset : Env := fun _ => none

/-- Environment with ENV_FILE set to .env.prod. -/
def envProdFile : Env :=
  fun k => if k == "ENV_FILE" then some ".env.prod" else none

/-- Environment with ENV_FILE set to the empty string. -/
def envEmptyFile : Env :=
  fun k => if k == "ENV_FILE" then some "" else none

/- Embedding of the Zod example code in ZOD_GUIDE.md. JavaScript values
   are modelled by JsValue; JavaScript numbers are modelled by rationals
   (enough to distinguish integers from non-integers as the int check
   does). -/

/-- A JavaScript value as seen by a Zod schema. -/
inductive JsValue where
  | str (s : String)
  | num (q : ℚ)
  | boolean (b : Bool)
  | null
  | obj (fields : List (String × JsValue))
  | arr (elems : List JsValue)

/-- JavaScript object field lookup: the value bound to key k, if any. -/
def lookupField (fs : List (String × JsValue)) (k : String) : Option JsValue :=
  (fs.find? (fun p => p.1 == k)).map (fun p => p.2)

/- The email format accepted by z.string().email() in Zod v3, whose
   regular expression requires: a local part that does not start with a
   dot, contains no two consecutive dots, consists of letters, digits,
   underscore, apostrophe, plus, hyphen and dot, and ends (just before
   the at-sign) in a letter, digit, underscore, plus or hyphen; exactly
   one at-sign; and a domain of one or more labels, each starting with a
   letter or digit followed by letters, digits or hyphens, separated by
   dots, ending in an all-letter top-level label of length at least
   two. -/

/-- Characters allowed anywhere in the local part: letters, digits,
    underscore, apostrophe (code 39), plus, hyphen, dot. -/
def isLocalPartChar (c : Char) : Bool :=
  c.isAlpha || c.isDigit || c == '_' || c.val == 39 || c == '+' ||
    c == '-' || c == '.'

/-- Characters allowed as the final character of the local part. -/
def isLocalPartEndChar (c : Char) : Bool :=
  c.isAlpha || c.isDigit || c == '_' || c == '+' || c == '-'

/-- Whether a character list contains two consecutive dots. -/
def hasConsecutiveDots : List Char → Bool
  | c1 :: c2 :: rest =>
    (c1 == '.' && c2 == '.') || hasConsecutiveDots (c2 :: rest)
  | _ => false

/-- Whether a character list is a valid email local part. -/
def localPartOk (l : List Char) : Bool :=
  !l.isEmpty && l.headD '.' != '.' && l.dropLast.all isLocalPartChar &&
    isLocalPartEndChar (l.getLastD '.') && !hasConsecutiveDots l

/-- Whether a character list is a valid non-final domain label. -/
def labelOk (l : List Char) : Bool :=
  match l with
  | [] => false
  | c0 :: rest =>
    (c0.isAlpha || c0.isDigit) &&
      rest.all (fun c => c.isAlpha || c.isDigit || c == '-')

/-- Whether a character list is a valid final (top-level) label. -/
def tldOk (l : List Char) : Bool :=
  decide (2 ≤ l.length) && l.all Char.isAlpha

/-- Whether a string is a valid email domain: at least one label then a
    top-level label, separated by dots. -/
def domainOk (dom : String) : Bool :=
  let parts := splitOnChar '.' dom.toList
  decide (2 ≤ parts.length) && parts.dropLast.all labelOk &&
    tldOk (parts.getLastD [])

/-- The email check of z.string().email(): exactly one at-sign, a valid
    local part before it and a valid domain after it. -/
def isZodEmail (s : String) : Bool :=
  match splitOnChar '@' s.toList with
  | [lp, dom] => localPartOk lp && domainOk (String.mk dom)
  | _ => false

/-- A Zod validation error as surfaced by schema.parse: its list of
    issue messages. -/
structure ZodError where
  errors : List String
deriving DecidableEq

/-- A Zod schema, modelled by the behaviour of its parse method: either
    the parsed (possibly transformed) value or a thrown ZodError. -/
structure ZodSchema where
  parse : JsValue → Except ZodError JsValue

/-- Issues raised for the email field of createUserSchema in
    ZOD_GUIDE.md: z.string().email() with a custom message. -/
def emailIssues (fs : List (String × JsValue)) : List String :=
  match lookupField fs "email" with
  | some (JsValue.str e) =>
    if isZodEmail e then [] else ["올바른 이메일 형식이 아닙니다."]
  | some _ => ["Expected string, received something else"]
  | none => ["Required"]

/-- Issues raised for the name field of createUserSchema:
    z.string().min(2).max(50) with custom messages. -/
def nameIssues (fs : List (String × JsValue)) : List String :=
  match lookupField fs "name" with
  | some (JsValue.str n) =>
    (if decide (2 ≤ n.length) then [] else ["이름은 최소 2자 이상이어야 합니다."]) ++
      (if decide (n.length ≤ 50) then [] else ["이름은 최대 50자까지 가능합니다."])
  | some _ => ["Expected string, received something else"]
  | none => ["Required"]

/-- The regular expression check of the password field: anchored
    lookaheads requiring a lowercase letter, an uppercase letter and a
    digit somewhere in the string. -/
def passwordRegexOk (p : String) : Bool :=
  p.toList.any Char.isLower && p.toList.any Char.isUpper &&
    p.toList.any Char.isDigit

/-- Issues raised for the password field of createUserSchema:
    z.string().min(8).regex(lookaheads) with custom messages. -/
def passwordIssues (fs : List (String × JsValue)) : List String :=
  match lookupField fs "password" with
  | some (JsValue.str p) =>
    (if decide (8 ≤ p.length) then [] else ["비밀번호는 최소 8자 이상이어야 합니다."]) ++
      (if passwordRegexOk p then [] else ["비밀번호는 대소문자와 숫자를 포함해야 합니다."])
  | some _ => ["Expected string, received something else"]
  | none => ["Required"]

/-- Issues raised for the optional age field of createUserSchema:
    z.number().int().min(0).max(150).optional(). -/
def ageIssues (fs : List (String × JsValue)) : List String :=
  match lookupField fs "age" with
  | none => []
  | some (JsValue.num q) =>
    (if q.den == 1 then [] else ["Expected integer, received float"]) ++
      (if decide (0 ≤ q) then [] else ["Number must be greater than or equal to 0"]) ++
      (if decide (q ≤ 150) then [] else ["Number must be less than or equal to 150"])
  | some _ => ["Expected number, received something else"]

/-- All issues raised by createUserSchema on an object input, in field
    declaration order. -/
def createUserIssues (fs : List (String × JsValue)) : List String :=
  emailIssues fs ++ nameIssues fs ++ passwordIssues fs ++ ageIssues fs

/-- The keys of createUserSchema kept in the parse result, in shape
    order; unknown keys are stripped as z.object does by default, and a
    missing optional key stays absent. -/
def stripUnknown (fs : List (String × JsValue)) : List (String × JsValue) :=
  ["email", "name", "password", "age"].filterMap
    (fun k => (lookupField fs k).map (fun v => (k, v)))

/-- parse of createUserSchema (ZOD_GUIDE.md, create-user.dto.ts
    example): a non-object is rejected; an object is accepted exactly
    when no field issue arises, and then the known keys are returned. -/
def createUserParse (v : JsValue) : Except ZodError JsValue :=
  match v with
  | JsValue.obj fs =>
    match createUserIssues fs with
    | [] => Except.ok (JsValue.obj (stripUnknown fs))
    | issues => Except.error { errors := issues }
  | _ => Except.error { errors := ["Expected object, received something else"] }

/-- createUserSchema packaged as a Zod schema. -/
def createUserSchema : ZodSchema :=
  { parse := createUserParse }

/-- Whether createUserSchema accepts a value. -/
def createUserAccepts (v : JsValue) : Bool :=
  match createUserParse v with
  | Except.ok _ => true
  | Except.error _ => false

/-- The exception types constructed by the NestJS example code. -/
inductive NestException where
  | badRequest (message : String) (errors : List String)
  | conflict (message : String)
  | notFound (message : String)
deriving DecidableEq

/-- ZodValidationPipe.transform from ZOD_GUIDE.md: parse the value with
    the pipe's schema and return the parsed value; any error thrown by
    parse is caught and rethrown as a BadRequestException whose body
    carries the message Validation failed and the Zod issues. -/
def ZodValidationPipe.transform (schema : ZodSchema) (value : JsValue) :
    Except NestException JsValue :=
  match schema.parse value with
  | Except.ok parsedValue => Except.ok parsedValue
  | Except.error e =>
    Except.error (NestException.badRequest "Validation failed" e.errors)

/- Specification-side acceptance predicate for createUserSchema,
   written from the specification wording: email is a string in valid
   email format; name is a string of length at least 2 and at most 50;
   password is a string of length at least 8 containing a lowercase
   letter, an uppercase letter and a digit; age, when present, is an
   integer between 0 and 150 inclusive. To be compared with the
   source-side createUserAccepts. -/

/-- Spec wording: the email field is a string in valid email format. -/
def specEmailOk (fs : List (String × JsValue)) : Bool :=
  match lookupField fs "email" with
  | some (JsValue.str e) => isZodEmail e
  | _ => false

/-- Spec wording: the name field is a string of length at least 2 and
    at most 50. -/
def specNameOk (fs : List (String × JsValue)) : Bool :=
  match lookupField fs "name" with
  | some (JsValue.str n) => decide (2 ≤ n.length) && decide (n.length ≤ 50)
  | _ => false

/-- Spec wording: the password field is a string of length at least 8
    containing at least one lowercase letter, one uppercase letter and
    one digit. -/
def specPasswordOk (fs : List (String × JsValue)) : Bool :=
  match lookupField fs "password" with
  | some (JsValue.str p) =>
    decide (8 ≤ p.length) &&
      (p.toList.any Char.isLower && p.toList.any Char.isUpper &&
        p.toList.any Char.isDigit)
  | _ => false

/-- Spec wording: the age field, when present, is an integer between 0
    and 150 inclusive; it may be omitted. -/
def specAgeOk (fs : List (String × JsValue)) : Bool :=
  match lookupField fs "age" with
  | none => true
  | some (JsValue.num q) => q.den == 1 && decide (0 ≤ q) && decide (q ≤ 150)
  | some _ => false

/-- Spec wording, assembled: createUserSchema accepts an input object
    exactly when all four field conditions hold. -/
def specAcceptsCreateUser (v : JsValue) : Bool :=
  match v with
  | JsValue.obj fs => specEmailOk fs && specNameOk fs && specPasswordOk fs && specAgeOk fs
  | _ => false

/- Inventory of the supplied source files. Three files come with their
   repository paths; four further files were supplied without their
   names (an environment-variable guide in markdown, the Metro
   configuration, the ESLint flat configuration and the Prettier
   configuration), so the inventory is parametrised by an assignment of
   names to those four. -/

/-- Classification of a supplied file by its content. -/
inductive FileContent where
  | markdownDoc (title : String)
  | jsCode (description : String)
deriving DecidableEq

/-- A supplied source file: its path and its content class. -/
structure SuppliedFile where
  name : String
  content : FileContent
deriving DecidableEq

/-- The seven supplied source files. The first three carry their known
    paths; the last four carry the names assigned by naming, while
    their contents are fixed by the supplied material: a markdown
    environment-variable guide and three JavaScript configuration
    files. -/
def suppliedFiles (naming : Fin 4 → String) : List SuppliedFile :=
  [{ name := "README.md", content := FileContent.markdownDoc "moim" },
   { name := "ZOD_GUIDE.md", content := FileContent.markdownDoc "Zod 사용 가이드" },
   { name := "apps/mobile/babel.config.js", content := FileContent.jsCode "Babel configuration" },
   { name := naming 0, content := FileContent.markdownDoc "환경 변수 설정 가이드" },
   { name := naming 1, content := FileContent.jsCode "Metro configuration" },
   { name := naming 2, content := FileContent.jsCode "ESLint flat configuration" },
   { name := naming 3, content := FileContent.jsCode "Prettier configuration" }]

/-- Whether a file content is a markdown document. -/
def isMarkdownDoc : FileContent → Bool
  | FileContent.markdownDoc _ => true
  | _ => false

/-- Whether a file path names an AGENTS.md file (at the repository root
    or in a subdirectory). -/
def nameIsAgents (n : String) : Bool :=
  "AGENTS.md".toList.isSuffixOf n.toList

/-- Whether a supplied file is an AGENTS.md document: named AGENTS.md
    and a markdown document. -/
def isAgentsDoc (f : SuppliedFile) : Bool :=
  nameIsAgents f.name && isMarkdownDoc f.content

/-- Number of AGENTS.md documents among the supplied files under a
    naming of the unnamed files. -/
def agentsDocCount (naming : Fin 4 → String) : Nat :=
  ((suppliedFiles naming).filter isAgentsDoc).length

/- Inventory of the exception constructions, try/catch blocks, user
   schema examples, test snippets and code entities appearing in the
   example code blocks of the supplied documentation. -/

/-- Exception types appearing in the documentation's example code. -/
inductive ExceptionType where
  | badRequestException
  | conflictException
  | notFoundException
  | jsError
deriving DecidableEq

/-- A site in the supplied documentation where an exception is
    constructed and thrown. -/
structure ThrowSite where
  file : String
  line : Nat
  thrown : ExceptionType
deriving DecidableEq

/-- Every site in the supplied source where example code constructs and
    throws an exception: the BadRequestException in
    ZodValidationPipe.transform, the Error in validateEnv, and the
    Error in userApi.getUserSafe. The rethrow of a caught error in
    getUserSafe constructs nothing. -/
def suppliedThrowSites : List ThrowSite :=
  [{ file := "ZOD_GUIDE.md", line := 79, thrown := ExceptionType.badRequestException },
   { file := "ZOD_GUIDE.md", line := 165, thrown := ExceptionType.jsError },
   { file := "ZOD_GUIDE.md", line := 221, thrown := ExceptionType.jsError }]

/-- A try/catch block in the supplied documentation's example code,
    with whether its try body performs a network call. -/
structure TryCatchSite where
  file : String
  line : Nat
  wrapsNetworkCall : Bool
deriving DecidableEq

/-- The try/catch blocks of the supplied example code: in
    ZodValidationPipe.transform (wrapping schema.parse), in validateEnv
    (wrapping envSchema.parse), and in userApi.getUserSafe (wrapping an
    axios network call). -/
def suppliedTryCatchSites : List TryCatchSite :=
  [{ file := "ZOD_GUIDE.md", line := 75, wrapsNetworkCall := false },
   { file := "ZOD_GUIDE.md", line := 161, wrapsNetworkCall := false },
   { file := "ZOD_GUIDE.md", line := 215, wrapsNetworkCall := true }]

/-- A field of a Zod object schema shown in the documentation: its key
    and the Zod chain it is declared with. -/
structure SchemaField where
  fieldName : String
  zodChain : String
deriving DecidableEq

/-- Fields of userSchema in apps/mobile/src/api/schemas/user.schema.ts
    (ZOD_GUIDE.md, mobile API response validation example). -/
def mobileUserSchemaFields : List SchemaField :=
  [{ fieldName := "id", zodChain := "z.string()" },
   { fieldName := "email", zodChain := "z.string().email()" },
   { fieldName := "name", zodChain := "z.string()" },
   { fieldName := "createdAt", zodChain := "z.string().datetime()" }]

/-- Fields of userSchema in packages/shared-types (ZOD_GUIDE.md, shared
    schema example). -/
def sharedUserSchemaFields : List SchemaField :=
  [{ fieldName := "id", zodChain := "z.string().uuid()" },
   { fieldName := "email", zodChain := "z.string().email()" },
   { fieldName := "name", zodChain := "z.string().min(2).max(50)" },
   { fieldName := "createdAt", zodChain := "z.string().datetime()" },
   { fieldName := "updatedAt", zodChain := "z.string().datetime()" }]

/-- Fields of timestampSchema in the reusable-schemas example. -/
def timestampSchemaFields : List SchemaField :=
  [{ fieldName := "createdAt", zodChain := "z.string().datetime()" },
   { fieldName := "updatedAt", zodChain := "z.string().datetime()" }]

/-- Fields of the userSchema of the reusable-schemas example: id and
    name merged with timestampSchema. -/
def mergedUserSchemaFields : List SchemaField :=
  [{ fieldName := "id", zodChain := "z.string()" },
   { fieldName := "name", zodChain := "z.string()" }] ++ timestampSchemaFields

/-- Every user schema example in the supplied documentation, by its
    location. -/
def userSchemaExamples : List (String × List SchemaField) :=
  [("ZOD_GUIDE.md mobile userSchema", mobileUserSchemaFields),
   ("ZOD_GUIDE.md shared-types userSchema", sharedUserSchemaFields),
   ("ZOD_GUIDE.md reusable-schemas userSchema", mergedUserSchemaFields)]

/-- Whether a schema field list declares a field with the given key. -/
def hasField (fs : List SchemaField) (n : String) : Bool :=
  fs.any (fun f => f.fieldName == n)

/-- What a Jest test snippet in the supplied documentation exercises. -/
inductive TestScenario where
  | safeParseValidUser
  | safeParseInvalidEmail
  | buttonFiresOnPress
  | duplicateEmailThrows
deriving DecidableEq

/-- A Jest test snippet: its describe block, its it name and the
    scenario it exercises. -/
structure TestSnippet where
  describeBlock : String
  itName : String
  scenario : TestScenario
deriving DecidableEq

/-- Every Jest test snippet in the supplied source: the two cases of
    the describe block in the best-practices section of ZOD_GUIDE.md,
    both exercising userSchema.safeParse. -/
def suppliedTestSnippets : List TestSnippet :=
  [{ describeBlock := "유저", itName := "유효한 유저 데이터 검증",
     scenario := TestScenario.safeParseValidUser },
   { describeBlock := "유저", itName := "무효한 이메일 유저 검증",
     scenario := TestScenario.safeParseInvalidEmail }]

/-- A code entity appearing in a documentation code block. -/
inductive CodeEntity where
  | classDef (className : String)
  | methodCallSite (receiver : String) (target : String)
  | jsxElement (component : String)
  | funcDef (funcName : String)
  | schemaDef (schemaName : String)
deriving DecidableEq

/-- A documentation code block and the entity it shows. -/
structure DocCodeBlock where
  file : String
  line : Nat
  entity : CodeEntity
deriving DecidableEq

/-- Code entities shown by the example blocks of ZOD_GUIDE.md: the
    ZodValidationPipe class, createUserSchema, the UsersController
    class with its this.usersService.create call sites, validateEnv,
    the SignupScreen component with its Button element, and the shared
    usage call site of usersService.create. -/
def guideCodeEntities : List DocCodeBlock :=
  [{ file := "ZOD_GUIDE.md", line := 71, entity := CodeEntity.classDef "ZodValidationPipe" },
   { file := "ZOD_GUIDE.md", line := 94, entity := CodeEntity.schemaDef "createUserSchema" },
   { file := "ZOD_GUIDE.md", line := 122, entity := CodeEntity.classDef "UsersController" },
   { file := "ZOD_GUIDE.md", line := 128, entity := CodeEntity.methodCallSite "usersService" "create" },
   { file := "ZOD_GUIDE.md", line := 137, entity := CodeEntity.methodCallSite "usersService" "create" },
   { file := "ZOD_GUIDE.md", line := 160, entity := CodeEntity.funcDef "validateEnv" },
   { file := "ZOD_GUIDE.md", line := 260, entity := CodeEntity.funcDef "SignupScreen" },
   { file := "ZOD_GUIDE.md", line := 306, entity := CodeEntity.jsxElement "Button" },
   { file := "ZOD_GUIDE.md", line := 382, entity := CodeEntity.methodCallSite "usersService" "create" }]

/-- A valid create-user input used as a concrete test vector. -/
def goodUserInput : JsValue :=
  JsValue.obj
    [("email", JsValue.str "test@example.com"),
     ("name", JsValue.str "Tester"),
     ("password", JsValue.str "Abcdef12")]

/-- An invalid create-user input used as a concrete test vector: bad
    email, too-short name, too-short password without uppercase or
    digit. -/
def badUserInput : JsValue :=
  JsValue.obj
    [("email", JsValue.str "invalid-email"),
     ("name", JsValue.str "T"),
     ("password", JsValue.str "short")]

/- Helper lemmas. -/

/-- An if-then-else returning the empty list or a one-message list is
    empty exactly when its condition holds. -/
theorem if_singleton_eq_nil {c : Prop} [Decidable c] (m : String) :
    ((if c then ([] : List String) else [m]) = []) ↔ c := by
  split <;> simp_all

/-- Two appended one-check issue lists are empty exactly when both
    checks pass. -/
theorem two_checks_eq_nil (c1 c2 : Bool) (m1 m2 : String) :
    (((if c1 = true then ([] : List String) else [m1]) ++
      (if c2 = true then ([] : List String) else [m2])) = []) ↔
      (c1 && c2) = true := by
  cases c1 <;> cases c2 <;> simp

/-- Three appended one-check issue lists are empty exactly when all
    three checks pass. -/
theorem three_checks_eq_nil (c1 c2 c3 : Bool) (m1 m2 m3 : String) :
    (((if c1 = true then ([] : List String) else [m1]) ++
      (if c2 = true then ([] : List String) else [m2]) ++
      (if c3 = true then ([] : List String) else [m3])) = []) ↔
      (c1 && c2 && c3) = true := by
  cases c1 <;> cases c2 <;> cases c3 <;> simp

/-- The email field raises no issue exactly when the spec-side email
    condition holds. -/
theorem emailIssues_eq_nil (fs : List (String × JsValue)) :
    (emailIssues fs = []) ↔ specEmailOk fs = true := by
  unfold emailIssues specEmailOk
  cases lookupField fs "email" with
  | none => simp
  | some v =>
    cases v
    case str e => exact if_singleton_eq_nil _
    all_goals simp

/-- The name field raises no issue exactly when the spec-side name
    condition holds. -/
theorem nameIssues_eq_nil (fs : List (String × JsValue)) :
    (nameIssues fs = []) ↔ specNameOk fs = true := by
  unfold nameIssues specNameOk
  cases lookupField fs "name" with
  | none => simp
  | some v =>
    cases v
    case str n => exact two_checks_eq_nil _ _ _ _
    all_goals simp

/-- The password field raises no issue exactly when the spec-side
    password condition holds. -/
theorem passwordIssues_eq_nil (fs : List (String × JsValue)) :
    (passwordIssues fs = []) ↔ specPasswordOk fs = true := by
  unfold passwordIssues specPasswordOk
  cases lookupField fs "password" with
  | none => simp
  | some v =>
    cases v
    case str p => exact two_checks_eq_nil _ _ _ _
    all_goals simp

/-- The age field raises no issue exactly when the spec-side age
    condition holds. -/
theorem ageIssues_eq_nil (fs : List (String × JsValue)) :
    (ageIssues fs = []) ↔ specAgeOk fs = true := by
  unfold ageIssues specAgeOk
  cases lookupField fs "age" with
  | none => simp
  | some v =>
    cases v
    case num q => exact three_checks_eq_nil _ _ _ _ _ _
    all_goals simp

/-- createUserSchema raises no issue on an object exactly when all four
    spec-side field conditions hold. -/
theorem createUserIssues_eq_nil (fs : List (String × JsValue)) :
    (createUserIssues fs = []) ↔
      (specEmailOk fs && specNameOk fs && specPasswordOk fs && specAgeOk fs) = true := by
  unfold createUserIssues
  simp [List.append_eq_nil, emailIssues_eq_nil, nameIssues_eq_nil,
    passwordIssues_eq_nil, ageIssues_eq_nil, Bool.and_eq_true, and_assoc]

/-- Claim C10 — createUserSchema accepts an input value exactly when
    the specification's conditions hold: the input is an object whose
    email is a string in valid email format, whose name is a string of
    length between 2 and 50, whose password is a string of length at
    least 8 containing a lowercase letter, an uppercase letter and a
    digit, and whose age, when present, is an integer between 0 and 150
    inclusive. -/
theorem create_user_schema_accepts_iff (v : JsValue) :
    createUserAccepts v = specAcceptsCreateUser v := by
  cases v with
  | obj fs =>
    unfold createUserAccepts createUserParse specAcceptsCreateUser
    cases h : createUserIssues fs with
    | nil =>
      have hs := (createUserIssues_eq_nil fs).mp h
      simp [h, hs]
    | cons i rest =>
      have hne : createUserIssues fs ≠ [] := by
        rw [h]; exact List.cons_ne_nil i rest
      have hb : (specEmailOk fs && specNameOk fs && specPasswordOk fs && specAgeOk fs) = false := by
        cases hcb : (specEmailOk fs && specNameOk fs && specPasswordOk fs && specAgeOk fs) with
        | false => rfl
        | true => exact absurd ((createUserIssues_eq_nil fs).mpr hcb) hne
      simp [hb]
  | str s => rfl
  | num q => rfl
  | boolean b => rfl
  | null => rfl
  | arr es => rfl

/-- Claim C9 — for every Zod schema and every input value,
    ZodValidationPipe.transform returns exactly the schema's parse
    result when the schema accepts the value, throws a
    BadRequestException whose body has message Validation failed
    exactly when the schema rejects the value, and lets no other
    exception type escape. -/
theorem zod_validation_pipe_transform_spec (schema : ZodSchema) (value : JsValue) :
    (∀ v, schema.parse value = Except.ok v →
        ZodValidationPipe.transform schema value = Except.ok v) ∧
    (∀ e, schema.parse value = Except.error e →
        ZodValidationPipe.transform schema value =
          Except.error (NestException.badRequest "Validation failed" e.errors)) ∧
    (∀ exc, ZodValidationPipe.transform schema value = Except.error exc →
        ∃ errs, exc = NestException.badRequest "Validation failed" errs) := by
  refine ⟨?_, ?_, ?_⟩
  · intro v hv
    simp [ZodValidationPipe.transform, hv]
  · intro e he
    simp [ZodValidationPipe.transform, he]
  · intro exc hexc
    unfold ZodValidationPipe.transform at hexc
    cases h : schema.parse value with
    | ok v0 => rw [h] at hexc; simp at hexc
    | error e0 =>
      rw [h] at hexc
      simp only [Except.error.injEq] at hexc
      exact ⟨e0.errors, hexc.symm⟩

/-- Claim C9 witness — the pipe evaluated at createUserSchema on a
    concrete valid and a concrete invalid input. -/
theorem zod_validation_pipe_transform_spec_witness :
    ZodValidationPipe.transform createUserSchema goodUserInput =
      Except.ok (JsValue.obj
        [("email", JsValue.str "test@example.com"),
         ("name", JsValue.str "Tester"),
         ("password", JsValue.str "Abcdef12")]) ∧
    ZodValidationPipe.transform createUserSchema badUserInput =
      Except.error (NestException.badRequest "Validation failed"
        ["올바른 이메일 형식이 아닙니다.", "이름은 최소 2자 이상이어야 합니다.",
         "비밀번호는 최소 8자 이상이어야 합니다.", "비밀번호는 대소문자와 숫자를 포함해야 합니다."]) :=
  ⟨(zod_validation_pipe_transform_spec createUserSchema goodUserInput).1
      (JsValue.obj
        [("email", JsValue.str "test@example.com"),
         ("name", JsValue.str "Tester"),
         ("password", JsValue.str "Abcdef12")]) rfl,
   (zod_validation_pipe_transform_spec createUserSchema badUserInput).2.1
      { errors :=
          ["올바른 이메일 형식이 아닙니다.", "이름은 최소 2자 이상이어야 합니다.",
           "비밀번호는 최소 8자 이상이어야 합니다.", "비밀번호는 대소문자와 숫자를 포함해야 합니다."] } rfl⟩

/-- Claim C1 counterexample — the Babel configuration exported by
    apps/mobile/babel.config.js does vary with the process environment:
    with ENV_FILE unset and with ENV_FILE set to .env.prod the exported
    configuration values differ, refuting the claim that every supplied
    configuration file exports an identical value for every pair of
    process environments. -/
theorem babel_config_varies_with_env :
    babelConfig envUnset ≠ babelConfig envProdFile := by decide

/-- Claim C1 (amended) — the Metro, ESLint and Prettier configuration
    values are identical for every pair of process environments, and
    the Babel configurations of two environments are equal exactly when
    the two environments give the same defaulted ENV_FILE value: the
    dotenv path option is the only environment-dependent part. -/
theorem config_env_dependence (e1 e2 : Env) (d : String) :
    metroExport e1 d = metroExport e2 d ∧
    eslintExport e1 = eslintExport e2 ∧
    prettierExport e1 = prettierExport e2 ∧
    (babelConfig e1 = babelConfig e2 ↔
      jsOr (e1 "ENV_FILE") ".env.dev" = jsOr (e2 "ENV_FILE") ".env.dev") := by
  refine ⟨rfl, rfl, rfl, ?_⟩
  constructor
  · intro h
    have := congrArg dotenvPath h
    simpa [dotenvPath, babelConfig] using this
  · intro h
    simp only [babelConfig, h]

/-- Claim C8 — the react-native-dotenv plugin's path option in
    apps/mobile/babel.config.js equals ENV_FILE whenever that variable
    is set to a non-empty string, and equals .env.dev whenever ENV_FILE
    is unset or set to the empty string (the empty string also takes
    the fallback because the default is chosen with JavaScript
    logical-or). -/
theorem babel_dotenv_path_spec (e : Env) (s : String) :
    (e "ENV_FILE" = some s → s ≠ "" →
      dotenvPath (babelConfig e) = some s) ∧
    ((e "ENV_FILE" = none ∨ e "ENV_FILE" = some "") →
      dotenvPath (babelConfig e) = some ".env.dev") := by
  constructor
  · intro h hne
    simp [dotenvPath, babelConfig, jsOr, h, hne]
  · rintro (h | h) <;> simp [dotenvPath, babelConfig, jsOr, h]

/-- Claim C8 witness — the path option evaluated in three concrete
    environments: ENV_FILE set to .env.prod, unset, and set to the
    empty string. -/
theorem babel_dotenv_path_spec_witness :
    dotenvPath (babelConfig envProdFile) = some ".env.prod" ∧
    dotenvPath (babelConfig envUnset) = some ".env.dev" ∧
    dotenvPath (babelConfig envEmptyFile) = some ".env.dev" :=
  ⟨(babel_dotenv_path_spec envProdFile ".env.prod").1 rfl (by decide),
   (babel_dotenv_path_spec envUnset "").2 (Or.inl rfl),
   (babel_dotenv_path_spec envEmptyFile "").2 (Or.inr rfl)⟩

/-- Folding the path-normalisation step over segments containing no
    dot or dot-dot appends them to the accumulator. -/
theorem foldl_normStep_no_dots (segs : List String) :
    ∀ acc : List String, (∀ s ∈ segs, s ≠ ".." ∧ s ≠ ".") →
      segs.foldl normStep acc = acc ++ segs := by
  induction segs with
  | nil => intro acc _; simp
  | cons s rest ih =>
    intro acc h
    have hs := h s (by simp)
    have hrest : ∀ x ∈ rest, x ≠ ".." ∧ x ≠ "." :=
      fun x hx => h x (by simp [hx])
    simp only [List.foldl_cons]
    rw [show normStep acc s = acc ++ [s] from by simp [normStep, hs.1, hs.2]]
    rw [ih (acc ++ [s]) hrest]
    simp

/-- Resolving two directory levels up from a clean absolute path drops
    its last two segments. -/
theorem resolvePath_up_two (d : String)
    (h : ∀ s ∈ splitPath d, s ≠ ".." ∧ s ≠ ".") :
    resolvePath d "../.." = joinPath ((splitPath d).dropLast.dropLast) := by
  unfold resolvePath normalizeSegs
  rw [show splitPath "../.." = ["..", ".."] from rfl]
  rw [List.foldl_append]
  rw [foldl_normStep_no_dots (splitPath d) [] h]
  simp [normStep]

/-- Claim C7 — for a clean absolute config directory, the Metro config
    object's watchFolders are the monorepo root (two directories above
    the config file) plus its packages/ui and packages/ts-config
    subdirectories; the ESLint flat config composes exactly the
    react-native, react-hooks recommended, prettier and react
    recommended configs in that order; and the Prettier configuration
    lists exactly five plugins. -/
theorem build_config_contents (d : String)
    (h : ∀ s ∈ splitPath d, s ≠ ".." ∧ s ≠ ".") :
    (metroConfig d).watchFolders =
      [joinPath ((splitPath d).dropLast.dropLast),
       joinPath ((splitPath d).dropLast.dropLast) ++ "/packages/ui",
       joinPath ((splitPath d).dropLast.dropLast) ++ "/packages/ts-config"] ∧
    eslintFlatConfig =
      [EslintEntry.reactNativeConfig, EslintEntry.reactHooksFlatRecommended,
       EslintEntry.eslintConfigPrettier, EslintEntry.reactFlatRecommended] ∧
    prettierConfig.plugins.length = 5 := by
  refine ⟨?_, rfl, rfl⟩
  simp only [metroConfig]
  rw [resolvePath_up_two d h]

/-- Claim C7 witness — the Metro watch folders for a concrete config
    directory, together with the ESLint composition and the Prettier
    plugin count. -/
theorem build_config_contents_witness :
    (metroConfig "/home/dev/moim/apps/mobile").watchFolders =
      ["/home/dev/moim", "/home/dev/moim/packages/ui",
       "/home/dev/moim/packages/ts-config"] ∧
    eslintFlatConfig =
      [EslintEntry.reactNativeConfig, EslintEntry.reactHooksFlatRecommended,
       EslintEntry.eslintConfigPrettier, EslintEntry.reactFlatRecommended] ∧
    prettierConfig.plugins.length = 5 :=
  build_config_contents "/home/dev/moim/apps/mobile" (by decide)

/-- However the four unnamed supplied files are named, at most one of
    them can be an AGENTS.md document, because three of them are
    JavaScript configuration code and the three named files are not
    called AGENTS.md. -/
theorem agentsDocCount_le_one (naming : Fin 4 → String) :
    agentsDocCount naming ≤ 1 := by
  have h1 : nameIsAgents "README.md" = false := rfl
  have h2 : nameIsAgents "ZOD_GUIDE.md" = false := rfl
  have h3 : nameIsAgents "apps/mobile/babel.config.js" = false := rfl
  by_cases hb : nameIsAgents (naming 0) = true <;>
    simp [agentsDocCount, suppliedFiles, isAgentsDoc, isMarkdownDoc,
      List.filter, h1, h2, h3, hb]

/-- Claim C2 counterexample — under no assignment of names to the four
    unnamed supplied files do three AGENTS.md documents exist among the
    supplied source files, refuting the claim that three AGENTS.md
    documents are present in the supplied source. -/
theorem no_three_agents_docs :
    ¬ ∃ naming : Fin 4 → String, 3 ≤ agentsDocCount naming := by
  rintro ⟨naming, h⟩
  have := agentsDocCount_le_one naming
  omega

/-- Claim C2 (amended) — the supplied source comprises seven files:
    README.md, ZOD_GUIDE.md and one environment-variable guide
    document are present, markdown documents number exactly three, and
    at most one supplied file can be an AGENTS.md document, so the
    three AGENTS.md files are not among the supplied files. -/
theorem supplied_file_inventory (naming : Fin 4 → String) :
    (suppliedFiles naming).length = 7 ∧
    SuppliedFile.mk "README.md" (FileContent.markdownDoc "moim") ∈ suppliedFiles naming ∧
    SuppliedFile.mk "ZOD_GUIDE.md" (FileContent.markdownDoc "Zod 사용 가이드") ∈ suppliedFiles naming ∧
    (∃ f ∈ suppliedFiles naming, f.content = FileContent.markdownDoc "환경 변수 설정 가이드") ∧
    ((suppliedFiles naming).filter (fun f => isMarkdownDoc f.content)).length = 3 ∧
    agentsDocCount naming ≤ 1 := by
  refine ⟨rfl, by simp [suppliedFiles], by simp [suppliedFiles], ?_, rfl,
    agentsDocCount_le_one naming⟩
  exact ⟨SuppliedFile.mk (naming 0) (FileContent.markdownDoc "환경 변수 설정 가이드"),
    by simp [suppliedFiles], rfl⟩

/-- Claim C3 counterexample — the example code of the supplied source
    constructs and throws a BadRequestException (in
    ZodValidationPipe.transform, ZOD_GUIDE.md line 79), which is
    neither a ConflictException nor a NotFoundException, refuting the
    claim that every exception type constructed and thrown in the
    supplied example code is one of those two. -/
theorem bad_request_thrown_not_conflict_or_not_found :
    ThrowSite.mk "ZOD_GUIDE.md" 79 ExceptionType.badRequestException ∈ suppliedThrowSites ∧
    ¬ (suppliedThrowSites.all
        (fun t => t.thrown == ExceptionType.conflictException ||
          t.thrown == ExceptionType.notFoundException) = true) := by
  decide

/-- Claim C3 (amended) — every exception constructed and thrown in the
    supplied example code is a BadRequestException or a plain Error;
    neither ConflictException nor NotFoundException is constructed
    anywhere in the supplied source; and try/catch wrapping of a
    network call does occur (in userApi.getUserSafe). -/
theorem thrown_exceptions_inventory :
    suppliedThrowSites.all
      (fun t => t.thrown == ExceptionType.badRequestException ||
        t.thrown == ExceptionType.jsError) = true ∧
    suppliedThrowSites.all
      (fun t => t.thrown != ExceptionType.conflictException &&
        t.thrown != ExceptionType.notFoundException) = true ∧
    suppliedTryCatchSites.any (fun t => t.wrapsNetworkCall) = true := by
  decide

/-- Claim C4 counterexample — the mobile userSchema example declares no
    password field, and so not every user schema example in the
    supplied source includes a password field alongside id, email, name
    and timestamps. -/
theorem user_schema_without_password :
    hasField mobileUserSchemaFields "password" = false ∧
    ¬ (userSchemaExamples.all (fun p => hasField p.2 "password") = true) := by
  decide

/-- Claim C4 (amended) — every user schema example in the supplied
    documentation declares id, name and a createdAt timestamp, and none
    declares a password field. -/
theorem user_schema_fields_inventory :
    userSchemaExamples.all
      (fun p => hasField p.2 "id" && hasField p.2 "name" &&
        hasField p.2 "createdAt") = true ∧
    userSchemaExamples.all (fun p => !hasField p.2 "password") = true := by
  decide

/-- Claim C5 counterexample — no test snippet in the supplied files
    exercises a button's onPress handler or a duplicate-email
    exception, refuting the claim that one of each is present. -/
theorem no_button_or_duplicate_email_test :
    ¬ (suppliedTestSnippets.any
        (fun t => t.scenario == TestScenario.buttonFiresOnPress) = true ∧
       suppliedTestSnippets.any
        (fun t => t.scenario == TestScenario.duplicateEmailThrows) = true) := by
  decide

/-- Claim C5 (amended) — the supplied files contain exactly two Jest
    test snippets, both exercising userSchema.safeParse (one on valid
    user data, one on an invalid email); no snippet exercises a
    button's onPress handler or a duplicate-email exception. -/
theorem test_snippets_inventory :
    suppliedTestSnippets.length = 2 ∧
    suppliedTestSnippets.all
      (fun t => t.scenario == TestScenario.safeParseValidUser ||
        t.scenario == TestScenario.safeParseInvalidEmail) = true ∧
    suppliedTestSnippets.any
      (fun t => t.scenario == TestScenario.buttonFiresOnPress) = false ∧
    suppliedTestSnippets.any
      (fun t => t.scenario == TestScenario.duplicateEmailThrows) = false := by
  decide

/-- Claim C6 — the guideline documents of the supplied source contain a
    ZodValidationPipe class definition, a call site of
    UsersService.create, and a Button component example. -/
theorem guide_code_entities_present :
    guideCodeEntities.any
      (fun b => b.entity == CodeEntity.classDef "ZodValidationPipe") = true ∧
    guideCodeEntities.any
      (fun b => b.entity == CodeEntity.methodCallSite "usersService" "create") = true ∧
    guideCodeEntities.any
      (fun b => b.entity == CodeEntity.jsxElement "Button") = true := by
  decide
